import Mathlib

/-!
Verification of the mail cache and scoring engine (`MailCacheService`).

The JavaScript source is embedded shallowly:

* JS strings are modeled as `List Char` (`Str`); `toLowerCase`, `includes`,
  `split`, `substring` and the few regular expressions the service uses are
  implemented over character lists with the same observable behaviour.
* JS numbers carrying scores, timestamps and sizes are modeled as `ℚ`.
  `Math.exp` and `new Date(string)` parsing are environment parameters
  (`Env.expFn`, `Env.parseDate`), since their float behaviour is external to
  the scoring logic under verification.
* A JS field that may be absent is modeled by its falsy default whenever the
  source only ever distinguishes truthiness (absent string ≡ `[]`, absent
  number ≡ `0`, absent list ≡ `[]`); this is observationally equivalent for
  every access the service performs.  Genuinely three-valued data (the user
  index document, attachment metadata) uses `Option`.
* Thrown errors become `Except Err` / `Option`; bookkeeping timestamps
  (`cachedAt`, `updatedAt`, `enhancedAt`) are not modeled.
-/

/-- JS strings as character lists. -/
abbrev Str := List Char

/-- JS `s.split(sep)` for a one-character separator, with JS semantics:
`"" → [""]`, `"a#" → ["a",""]`, etc. -/
def splitOnChar (sep : Char) : Str → List Str
  | [] => [[]]
  | c :: cs =>
    if c = sep then [] :: splitOnChar sep cs
    else
      match splitOnChar sep cs with
      | [] => [[c]]
      | r :: rs => (c :: r) :: rs

/-- Substring containment: `hay.includes(needle)` (JS `String.prototype.includes`). -/
def includesStr (hay needle : Str) : Bool :=
  decide (needle <:+: hay)

/-- JS `s.toLowerCase()` (ASCII case folding). -/
def toLowerStr (s : Str) : Str :=
  s.map Char.toLower

/-- Add an element at the end unless already present (JS `Set.prototype.add`
insertion-order semantics). -/
def pushNew (l : List Str) (x : Str) : List Str :=
  if x ∈ l then l else l ++ [x]

/-- JS `[...new Set(l)]` — deduplicate keeping first occurrences. -/
def dedupFirst (l : List Str) : List Str :=
  l.foldl pushNew []

/-- Whitespace for the purposes of the service's regexes (`\s`). -/
def isSpace (c : Char) : Bool :=
  c = ' ' || c = '\t' || c = '\n' || c = '\r'

/-- A `\w` word character: `[A-Za-z0-9_]`. -/
def isWordChar (c : Char) : Bool :=
  c.isAlphanum || c = '_'

/-- First match of `/<([^>]+)>/`: the (nonempty) run between the first `<`
that is followed by at least one non-`>` character and its closing `>`. -/
def angleMatch : Str → Option Str
  | [] => none
  | c :: cs =>
    if c = '<' then
      let inner := cs.takeWhile (fun d => d ≠ '>')
      if inner.length < cs.length ∧ inner ≠ [] then some inner else angleMatch cs
    else angleMatch cs

/-- Segments of a string between characters satisfying `p` (generalizes
`splitOnChar` to a character class). -/
def splitOnPred (p : Char → Bool) : Str → List Str
  | [] => [[]]
  | c :: cs =>
    if p c then [] :: splitOnPred p cs
    else
      match splitOnPred p cs with
      | [] => [[c]]
      | r :: rs => (c :: r) :: rs

/-- The maximal whitespace-free runs of a string, in order. -/
def wsRuns (s : Str) : List Str :=
  (splitOnPred isSpace s).filter (fun r => !r.isEmpty)

/-- First match of `/(\S+@\S+)/`: the first whitespace-delimited run that
contains an `@` at an internal position; the regex then matches the whole run
(greedy `\S+` on both sides). -/
def emailLikeMatch (s : Str) : Option Str :=
  (wsRuns s).find? (fun run => ((run.drop 1).dropLast).contains '@')

/-- Source `MailCacheService._extractDomainFromEmail`: angle-bracket address or first
email-like token, then `/@([^@]+)$/` (the nonempty text after the last `@`). -/
def extractDomainFromEmail (emailAddress : Str) : Option Str :=
  if emailAddress = [] then none
  else
    match (angleMatch emailAddress).orElse (fun _ => emailLikeMatch emailAddress) with
    | none => none
    | some email =>
      let parts := splitOnChar '@' email
      if parts.length ≥ 2 ∧ parts.getLastD [] ≠ [] then some (parts.getLastD []) else none

/-- The error taxonomy of the service (constructors mirror the `mkError`
messages thrown by the source). -/
inductive Err where
  | missingParameter (what : String)
  | notFound (what : String)
  | malformedId
  | enrichmentShape (what : String)
  | typeError (what : String)
  | referenceError (what : String)
  deriving DecidableEq

instance {ε α : Type _} [DecidableEq ε] [DecidableEq α] : DecidableEq (Except ε α) := fun x y =>
  match x, y with
  | .ok a, .ok b =>
    if h : a = b then .isTrue (by rw [h]) else .isFalse (by intro hh; cases hh; exact h rfl)
  | .error a, .error b =>
    if h : a = b then .isTrue (by rw [h]) else .isFalse (by intro hh; cases hh; exact h rfl)
  | .ok _, .error _ => .isFalse (by intro h; cases h)
  | .error _, .ok _ => .isFalse (by intro h; cases h)

/-- Source `MailCacheService.composeId`:
`` `${this._userId.substring(0, 8)}#${accountId}#${providerId}` ``. -/
def composeId (userId accountId providerId : Str) : Str :=
  userId.take 8 ++ ['#'] ++ accountId ++ ['#'] ++ providerId

/-- The record returned by `decomposeId`. -/
structure DecomposedId where
  userId : Str
  accountId : Str
  providerId : Str
  deriving DecidableEq

/-- Source `MailCacheService.decomposeId`: split on `#`; fewer than 3 parts is a
malformed ID; otherwise the first three parts. -/
def decomposeId (id : Str) : Except Err DecomposedId :=
  let parts := splitOnChar '#' id
  if parts.length < 3 then .error .malformedId
  else .ok ⟨parts.getD 0 [], parts.getD 1 [], parts.getD 2 []⟩

/-- A mail attachment as extracted from the provider payload. -/
structure Attachment where
  filename : Str
  size : ℚ
  deriving DecidableEq

/-- The `attachmentMetadata` record written by `processAttachments`. -/
structure AttachMeta where
  count : Nat
  types : List Str
  totalSize : ℚ
  hasDocuments : Bool
  hasImages : Bool
  hasSpreadsheets : Bool
  hasPresentations : Bool
  hasArchives : Bool
  hasExecutables : Bool
  deriving DecidableEq

/-- The `sentimentMetadata` record written by `applySentimentAnalysis`. -/
structure SentimentMeta where
  tone : Str
  intensity : Str
  emotionalContent : List Str
  deriving DecidableEq

/-- A cached mail document (`k2o-mail` collection).  Fields the source only
tests for truthiness use their JS falsy value for "absent". -/
structure Email where
  _id : Str
  userId : Str
  accountId : Str
  providerId : Str
  date : Str
  title : Str
  from_ : Str
  to_ : Str
  cc : Str
  textBody : Str
  htmlBody : Str
  autoSummary : Str
  shortSummary : Str
  actionItems : List Str
  keyPeople : List Str
  deadlines : List Str
  category : Str
  sentiment : Str
  labels : List Str
  attachments : List Attachment
  attachmentMetadata : Option AttachMeta
  sentimentMetadata : Option SentimentMeta
  importanceScore : ℚ
  spamScore : ℚ
  urgencyScore : ℚ
  deletableScore : ℚ
  priorityScore : ℚ
  priorityLabel : Str
  decayFactor : ℚ
  decayApplied : Bool
  deriving DecidableEq

/-- The all-absent email document. -/
def emptyEmail : Email where
  _id := []
  userId := []
  accountId := []
  providerId := []
  date := []
  title := []
  from_ := []
  to_ := []
  cc := []
  textBody := []
  htmlBody := []
  autoSummary := []
  shortSummary := []
  actionItems := []
  keyPeople := []
  deadlines := []
  category := []
  sentiment := []
  labels := []
  attachments := []
  attachmentMetadata := none
  sentimentMetadata := none
  importanceScore := 0
  spamScore := 0
  urgencyScore := 0
  deletableScore := 0
  priorityScore := 0
  priorityLabel := []
  decayFactor := 0
  decayApplied := false

instance : Inhabited Email := ⟨emptyEmail⟩

/-- The user cache index document (`user#<id>#cached-ids`).  A list field the
source only reads with `|| []`/truthiness is `[]` when absent. -/
structure CacheIndex where
  ids : List Str
  inbox : List Str
  deletables : List Str
  newMail : List Str
  summarizationQueue : List Str
  deriving DecidableEq

/-- The empty index `importNewEmails` starts from when none is stored. -/
def emptyIndex : CacheIndex where
  ids := []
  inbox := []
  deletables := []
  newMail := []
  summarizationQueue := []

instance : Inhabited CacheIndex := ⟨emptyIndex⟩

/-- The Firestore state the service touches: the per-user index document
(`none` when the document does not exist) and the mail collection, as a
write-log keyed association list (later writes shadow earlier ones). -/
structure Store where
  index : Option CacheIndex
  mail : List (Str × Email)
  deriving DecidableEq

/-- Source `firestore.read(MAIL_COLLECTION, id)` — `null` when absent. -/
def lookupMail (st : Store) (id : Str) : Option Email :=
  ((st.mail.find? (fun p => decide (p.1 = id))).map (·.2))

/-- Source `firestore.write(MAIL_COLLECTION, id, doc)` — set/overwrite. -/
def writeMail (st : Store) (id : Str) (doc : Email) : Store :=
  { st with mail := (id, doc) :: st.mail }

/-- The parsed, shape-validated JSON object an `enhancedSummarize` AI call
produces.  Fields have the types the validation step demands; what remains of
the dynamic checks (the score ranges) stays explicit in `enhancedSummarize`. -/
structure AiData where
  extendedSummary : Str
  shortSummary : Str
  actionItems : List Str
  keyPeople : List Str
  deadlines : List Str
  importanceScore : ℚ
  spamScore : ℚ
  category : Str
  sentiment : Str
  deriving DecidableEq

/-- The ambient environment of one service instance: constructor state plus
the external behaviours (clock, `new Date(string)` parsing, `Math.exp`) that
the scoring passes consume.  Timestamps are milliseconds since the epoch. -/
structure Env where
  userId : Str
  contacts : Str
  now : ℚ
  parseDate : Str → Option ℚ
  expFn : ℚ → ℚ

/-- Milliseconds per day (`1000 * 60 * 60 * 24`). -/
def dayMs : ℚ := 86400000

/-! ## Enrichment pipeline -/

/-- Source `MailCacheService.enhancedSummarize`, after the AI call.  `ai` is the
parsed JSON object extracted from the model reply (`none`: no JSON object
found or `JSON.parse` failed); the score-range part of the response
validation remains explicit. -/
def enhancedSummarize (ai : Option AiData) (email : Email) : Except Err Email :=
  if email._id = [] then .error (.missingParameter ("valid email object"))
  else
    match ai with
    | none => .error (.enrichmentShape ("Could not find or parse JSON object in response"))
    | some data =>
      if 0 ≤ data.importanceScore ∧ data.importanceScore ≤ 1 ∧
         0 ≤ data.spamScore ∧ data.spamScore ≤ 1 then
        .ok { email with
          autoSummary := data.extendedSummary
          shortSummary := data.shortSummary
          actionItems := data.actionItems
          keyPeople := data.keyPeople
          deadlines := data.deadlines
          importanceScore := data.importanceScore
          spamScore := data.spamScore
          category := data.category
          sentiment := data.sentiment }
      else .error (.enrichmentShape ("Invalid enhanced summarization response format"))

def urgentTerms : List Str :=
  ["urgent", "immediately", "asap", "today", "now", "deadline"].map String.toList

def deletableCategories : List Str :=
  ["promotional", "notification", "confirmation", "newsletter", "invoice"].map String.toList

def invoiceTerms : List Str :=
  ["invoice", "receipt", "payment confirmation", "bill", "statement"].map String.toList

def deletableLabels : List Str :=
  ["Promotional", "Notification", "Confirmation", "Newsletter"].map String.toList

/-- Sections 1, 2 and 5 of `applyAdvancedScoring`: the urgency accumulator
before the final cap.  The keyword fallback in the source's `catch` around
deadline parsing is unreachable (`new Date(string)` does not throw; invalid
dates fail the `isNaN` check), and `setDate(getDate() + 2)` is modeled as
adding 48 hours. -/
def advUrgencyRaw (env : Env) (email : Email) : ℚ :=
  -- 1. action items
  let u1 : ℚ := if email.actionItems.length > 0 then
      min ((email.actionItems.length : ℚ) * (5/100)) (3/10) else 0
  let hasUrgentActions := email.actionItems.any fun item =>
      urgentTerms.any fun term => includesStr (toLowerStr item) term
  let u2 : ℚ := u1 + (if email.actionItems.length > 0 ∧ hasUrgentActions then 1/10 else 0)
  -- 2. deadlines
  let tomorrow := env.now + 2 * dayMs
  let imminentDeadlines := email.deadlines.filter fun d =>
      match env.parseDate d with
      | some t => decide (t ≤ tomorrow)
      | none => false
  let u3 : ℚ := u2 + (if email.deadlines.length > 0 then
      (2/10) + (if imminentDeadlines.length > 0 then 3/10 else 0) else 0)
  -- 5. sentiment
  u3 + (if email.sentiment ≠ [] ∧ toLowerStr email.sentiment = ("urgent".toList)
        then 3/10 else 0)

/-- Sections 3 and 5 of `applyAdvancedScoring`: the importance score after
the internal-communication and sentiment adjustments. -/
def advImportance (email : Email) : ℚ :=
  -- 3. sender/recipient domains (internal communication boost)
  let senderEmail := (angleMatch email.from_).getD email.from_
  let senderDomain := (splitOnChar '@' senderEmail).get? 1
  let imp1 : ℚ :=
    if email.to_ ≠ [] then
      let recipientEmail := (angleMatch email.to_).getD email.to_
      let recipientDomain := (splitOnChar '@' recipientEmail).get? 1
      if senderDomain = recipientDomain then min (email.importanceScore + 1/10) 1
      else email.importanceScore
    else email.importanceScore
  -- 5. sentiment
  let sLower := toLowerStr email.sentiment
  if email.sentiment ≠ [] then
    if sLower = ("urgent".toList) then min (imp1 + 2/10) 1
    else if sLower = ("negative".toList) then min (imp1 + 1/10) 1
    else imp1
  else imp1

/-- Section 6 of `applyAdvancedScoring`: the deletable-score accumulator
before the final cap. -/
def advDeletableRaw (email : Email) : ℚ :=
  let d1 : ℚ := if email.category ≠ [] ∧ toLowerStr email.category ∈ deletableCategories
      then 3/10 else 0
  let hasInvoiceContent := invoiceTerms.any fun term =>
      (!email.title.isEmpty && includesStr (toLowerStr email.title) term) ||
      (!email.shortSummary.isEmpty && includesStr (toLowerStr email.shortSummary) term)
  let d2 : ℚ := d1 + (if hasInvoiceContent then 35/100 else 0)
  let matchingLabels := email.labels.filter fun l => decide (l ∈ deletableLabels)
  let d3 : ℚ := d2 + (if matchingLabels.length > 0
      then (15/100) * (matchingLabels.length : ℚ) else 0)
  d3 + (if email.spamScore > 0 then email.spamScore * (4/10) else 0)

/-- Section 8 of `applyAdvancedScoring`: the priority tier name. -/
def priorityLabelOf (priority : ℚ) : Str :=
  if priority ≥ 8/10 then ("Critical".toList)
  else if priority ≥ 6/10 then ("High".toList)
  else if priority ≥ 4/10 then ("Medium".toList)
  else if priority ≥ 2/10 then ("Low".toList)
  else ("Minimal".toList)

/-- Source `MailCacheService.applyAdvancedScoring`.  `env.now` models the
`new Date()` taken during the call. -/
def applyAdvancedScoring (env : Env) (email : Email) : Except Err Email :=
  if email._id = [] then .error (.missingParameter ("valid email object")) else
  let imp2 := advImportance email
  -- 6. cap the deletable score at 1.0
  let deletable := min (advDeletableRaw email) 1
  -- 7. final urgency and priority
  let urgency := min (advUrgencyRaw env email) 1
  let priority := max (min ((7/10) * imp2 + (3/10) * urgency - (5/10) * deletable) 1) 0
  .ok { email with
        importanceScore := imp2
        urgencyScore := urgency
        deletableScore := deletable
        priorityScore := priority
        priorityLabel := priorityLabelOf priority }

def promotionalKeywords : List Str :=
  ["offer", "discount", "promotion", "sale", "deal", "coupon", "save",
   "limited time", "exclusive", "buy now", "off", "free", "promo"].map String.toList

def newsletterKeywords : List Str :=
  ["newsletter", "digest", "weekly", "monthly", "update", "bulletin",
   "roundup", "recap", "summary", "edition"].map String.toList

def financialKeywords : List Str :=
  ["invoice", "payment", "transaction", "receipt", "order", "subscription",
   "credit card", "billing", "statement", "paid", "purchase", "tax",
   "refund", "balance", "account", "finance", "bank", "money"].map String.toList

def invoiceKeywords : List Str :=
  ["invoice", "bill", "receipt", "statement", "payment confirmation"].map String.toList

def responseKeywords : List Str :=
  ["let me know", "please respond", "reply", "response", "get back to me",
   "what do you think", "your thoughts", "your opinion"].map String.toList

def socialKeywords : List Str :=
  ["connect", "connection", "friend", "following", "follower", "liked", "commented",
   "shared", "social media", "network", "community", "profile", "group"].map String.toList

def socialSenders : List Str :=
  ["facebook", "instagram", "linkedin", "twitter", "tiktok", "snapchat", "pinterest",
   "youtube", "reddit", "discord", "slack"].map String.toList

def eventKeywords : List Str :=
  ["invitation", "invite", "event", "party", "celebration", "gathering",
   "meeting", "webinar", "conference", "workshop", "join us", "calendar",
   "schedule", "agenda", "rsvp", "attend", "save the date"].map String.toList

def surveyKeywords : List Str :=
  ["survey", "feedback", "questionnaire", "opinion", "rate", "rating",
   "review", "satisfaction", "poll", "evaluation", "assessment", "how did we do"].map String.toList

def notificationKeywords : List Str :=
  ["notification", "alert", "update", "status", "changed", "activity",
   "notice", "reminder", "notify", "fyi", "attention"].map String.toList

def notificationSenders : List Str :=
  ["noreply", "no-reply", "donotreply", "notification", "alert", "system",
   "updates", "info"].map String.toList

def followupKeywords : List Str :=
  ["follow up", "following up", "checking in", "reminder", "as discussed",
   "as promised", "as mentioned", "as requested"].map String.toList

def confirmationKeywords : List Str :=
  ["confirmation", "confirmed", "verify", "verified", "complete", "completed",
   "success", "successful", "approved", "processed", "received", "thank you for",
   "order confirmed", "booking confirmed", "reservation confirmed", "registered"].map String.toList

def businessKeywords : List Str :=
  ["business", "company", "corporate", "client", "project", "deadline", "contract",
   "proposal", "agreement", "meeting", "vendor", "partner", "stakeholder", "roi",
   "kpi", "metrics", "performance", "professional", "report", "quarterly"].map String.toList

def personalDomains : List Str :=
  ["gmail.com", "yahoo.com", "hotmail.com", "outlook.com", "aol.com", "icloud.com"].map String.toList

def personalKeywords : List Str :=
  ["personal", "family", "friend", "private", "home", "birthday", "anniversary",
   "vacation", "holiday", "gift", "congratulations", "best wishes", "regards",
   "love", "miss you", "thinking of you", "visit", "dinner", "lunch"].map String.toList

/-- Any keyword occurring (case-folded) in the short summary or the title
(with the source's truthiness guards on both fields). -/
def hitSummaryTitle (email : Email) (kws : List Str) : Bool :=
  kws.any fun kw =>
    (!email.shortSummary.isEmpty && includesStr (toLowerStr email.shortSummary) kw) ||
    (!email.title.isEmpty && includesStr (toLowerStr email.title) kw)

/-- Any keyword occurring (case-folded) in the `from` header. -/
def hitFrom (email : Email) (kws : List Str) : Bool :=
  kws.any fun kw =>
    !email.from_.isEmpty && includesStr (toLowerStr email.from_) kw

/-- Source `MailCacheService.categorizeEmail`.  The pairs carried through the steps
are (accumulated `labels`, `detectedCategories` in Set insertion order). -/
def categorizeEmail (env : Env) (email : Email) : Except Err Email :=
  if email._id = [] then .error (.missingParameter ("valid email object")) else
  let labels0 := email.labels
  -- 1. apply the AI category to the labels
  let s1 : List Str × List Str :=
    if email.category ≠ [] ∧ email.category ∉ labels0
    then (labels0 ++ [email.category], pushNew [] email.category)
    else (labels0, [])
  -- 2. Promotional
  let hasPromotionalContent := hitSummaryTitle email promotionalKeywords
  let s2 : List Str × List Str :=
    if (hasPromotionalContent ∨ (email.spamScore > 3/10 ∧ email.spamScore < 7/10)) ∧
       ("Promotional".toList) ∉ s1.1
    then (s1.1 ++ [("Promotional".toList)], pushNew s1.2 ("Promotional".toList))
    else s1
  -- 3. Newsletter
  let s3 : List Str × List Str :=
    if hitSummaryTitle email newsletterKeywords ∧ ("Newsletter".toList) ∉ s2.1
    then (s2.1 ++ [("Newsletter".toList)], pushNew s2.2 ("Newsletter".toList))
    else s2
  -- 4. Financial (with the invoice deletable-score boost)
  let hasFinancialContent := hitSummaryTitle email financialKeywords
  let hasInvoiceContent := hitSummaryTitle email invoiceKeywords
  let financialBranch : Prop := hasFinancialContent ∧ ("Financial".toList) ∉ s3.1
  let s4 : List Str × List Str :=
    if financialBranch
    then (s3.1 ++ [("Financial".toList)] ++
            (if hasInvoiceContent then [("Invoice".toList)] else []),
          pushNew s3.2 ("Financial".toList))
    else s3
  let deletable1 : ℚ := email.deletableScore +
    (if financialBranch ∧ hasInvoiceContent then 4/10 else 0)
  -- 5. action required
  let needsResponse := responseKeywords.any fun kw =>
    (!email.autoSummary.isEmpty && includesStr (toLowerStr email.autoSummary) kw) ||
    email.actionItems.any fun item => includesStr (toLowerStr item) kw
  let s5 : List Str × List Str :=
    if email.actionItems.length > 0
    then (s4.1 ++ [("Action Required".toList)] ++
            (if needsResponse then [("Response Needed".toList)] else []), s4.2)
    else s4
  -- 6. time sensitivity
  let s6 : List Str × List Str :=
    if email.deadlines.length > 0 ∨ (email.urgencyScore ≠ 0 ∧ email.urgencyScore > 6/10)
    then (s5.1 ++ [("Time Sensitive".toList)], s5.2)
    else s5
  -- 7. Social
  let s7 : List Str × List Str :=
    if (hitSummaryTitle email socialKeywords ∨ hitFrom email socialSenders) ∧
       ("Social".toList) ∉ s6.1
    then (s6.1 ++ [("Social".toList)], pushNew s6.2 ("Social".toList))
    else s6
  -- 8. Event
  let s8 : List Str × List Str :=
    if hitSummaryTitle email eventKeywords ∧ ("Event".toList) ∉ s7.1
    then (s7.1 ++ [("Event".toList)], pushNew s7.2 ("Event".toList))
    else s7
  -- 9. Survey
  let s9 : List Str × List Str :=
    if hitSummaryTitle email surveyKeywords ∧ ("Survey".toList) ∉ s8.1
    then (s8.1 ++ [("Survey".toList)], pushNew s8.2 ("Survey".toList))
    else s8
  -- 10. Notification
  let s10 : List Str × List Str :=
    if (hitSummaryTitle email notificationKeywords ∨ hitFrom email notificationSenders) ∧
       ("Notification".toList) ∉ s9.1
    then (s9.1 ++ [("Notification".toList)], pushNew s9.2 ("Notification".toList))
    else s9
  -- 11. follow-up (checked on title, then short summary)
  let s11 : List Str × List Str :=
    if hitSummaryTitle email followupKeywords
    then (s10.1 ++ [("Follow-up".toList)], s10.2)
    else s10
  -- 12. Confirmation
  let s12 : List Str × List Str :=
    if hitSummaryTitle email confirmationKeywords ∧ ("Confirmation".toList) ∉ s11.1
    then (s11.1 ++ [("Confirmation".toList)], pushNew s11.2 ("Confirmation".toList))
    else s11
  -- 13. Business
  let senderDomain := extractDomainFromEmail email.from_
  let isLikelyBusiness : Prop := senderDomain.isSome ∧
    ¬ personalDomains.any fun d => includesStr (senderDomain.getD []) d
  let s13 : List Str × List Str :=
    if (hitSummaryTitle email businessKeywords ∨ isLikelyBusiness) ∧
       ("Business".toList) ∉ s12.1 ∧ ("Personal".toList) ∉ s12.2
    then (s12.1 ++ [("Business".toList)], pushNew s12.2 ("Business".toList))
    else s12
  -- 14. Personal
  let isFromContact : Prop := env.contacts ≠ [] ∧ includesStr env.contacts email.from_
  let s14 : List Str × List Str :=
    if (hitSummaryTitle email personalKeywords ∨ isFromContact) ∧
       ("Personal".toList) ∉ s13.1 ∧ ("Business".toList) ∉ s13.2
    then (s13.1 ++ [("Personal".toList)], pushNew s13.2 ("Personal".toList))
    else s13
  -- 15. information sharing (actionItems present but empty, nothing detected)
  let s15 : List Str × List Str :=
    if email.actionItems.length = 0 ∧ s14.2.length = 0
    then (s14.1 ++ [("Information".toList)], s14.2)
    else s14
  -- 16. high importance
  let s16 : List Str × List Str :=
    if email.priorityLabel = ("Critical".toList) ∨ email.priorityLabel = ("High".toList)
    then (s15.1 ++ [("Important".toList)], s15.2)
    else s15
  -- unique labels, primary category backfill
  .ok { email with
        labels := dedupFirst s16.1
        category := if email.category = [] ∧ s16.2.length > 0
          then s16.2.headD [] else email.category
        deletableScore := deletable1 }

/-- The file-extension → attachment-type table of `processAttachments`. -/
def extTypeMap : List (Str × Str) :=
  ([("pdf", "document"), ("doc", "document"), ("docx", "document"),
    ("txt", "document"), ("rtf", "document"), ("odt", "document"),
    ("xls", "spreadsheet"), ("xlsx", "spreadsheet"), ("csv", "spreadsheet"),
    ("ods", "spreadsheet"),
    ("ppt", "presentation"), ("pptx", "presentation"), ("odp", "presentation"),
    ("jpg", "image"), ("jpeg", "image"), ("png", "image"), ("gif", "image"),
    ("bmp", "image"), ("svg", "image"),
    ("zip", "archive"), ("rar", "archive"), ("7z", "archive"),
    ("tar", "archive"), ("gz", "archive"),
    ("exe", "executable"), ("msi", "executable"), ("app", "executable"),
    ("dmg", "executable"), ("bat", "executable"), ("sh", "executable")]
   : List (String × String)).map fun p => (p.1.toList, p.2.toList)

/-- JS `filename.split(dot).pop().toLowerCase()` mapped through the type table
(`'other'` when the extension is unknown). -/
def attachmentType (filename : Str) : Str :=
  let ext := toLowerStr ((splitOnChar '.' filename).getLastD [])
  match extTypeMap.find? (fun p => decide (p.1 = ext)) with
  | some p => p.2
  | none => ("other".toList)

/-- One step of the `attachments.forEach` loop building `attachmentMetadata`. -/
def foldAttachMeta (meta : AttachMeta) (a : Attachment) : AttachMeta :=
  let m1 := if a.size ≠ 0 then { meta with totalSize := meta.totalSize + a.size } else meta
  if a.filename ≠ [] then
    let t := attachmentType a.filename
    let m2 := { m1 with types := if t ∈ m1.types then m1.types else m1.types ++ [t] }
    if t = ("document".toList) then { m2 with hasDocuments := true }
    else if t = ("spreadsheet".toList) then { m2 with hasSpreadsheets := true }
    else if t = ("presentation".toList) then { m2 with hasPresentations := true }
    else if t = ("image".toList) then { m2 with hasImages := true }
    else if t = ("archive".toList) then { m2 with hasArchives := true }
    else if t = ("executable".toList) then { m2 with hasExecutables := true }
    else m2
  else m1

def invoiceAttachmentKeywords : List Str :=
  ["invoice", "receipt", "bill", "statement"].map String.toList

/-- Source `MailCacheService.processAttachments`. -/
def processAttachments (email : Email) : Except Err Email :=
  if email._id = [] then .error (.missingParameter ("valid email object")) else
  if email.attachments = [] then .ok email else
  let meta0 : AttachMeta :=
    { count := email.attachments.length
      types := []
      totalSize := 0
      hasDocuments := false
      hasImages := false
      hasSpreadsheets := false
      hasPresentations := false
      hasArchives := false
      hasExecutables := false }
  let meta := email.attachments.foldl foldAttachMeta meta0
  let labels1 := email.labels ++ [("Has Attachments".toList)]
  let hasInvoiceAttachment := email.attachments.any fun a =>
      !a.filename.isEmpty &&
      invoiceAttachmentKeywords.any fun kw => includesStr (toLowerStr a.filename) kw
  let labels2 := labels1 ++
    (if hasInvoiceAttachment then [("Invoice Attachment".toList)] else [])
  let del : ℚ := email.deletableScore + (if hasInvoiceAttachment then 3/10 else 0)
  let labels3 := labels2 ++ (if meta.hasDocuments then [("Has Documents".toList)] else [])
  let labels4 := labels3 ++ (if meta.hasSpreadsheets then [("Has Spreadsheets".toList)] else [])
  let labels5 := labels4 ++ (if meta.hasPresentations then [("Has Presentations".toList)] else [])
  let labels6 := labels5 ++ (if meta.hasExecutables then [("Has Executables".toList)] else [])
  let spam : ℚ := if meta.hasExecutables then min (email.spamScore + 2/10) 1 else email.spamScore
  let imp : ℚ :=
    if (meta.hasDocuments ∨ meta.hasSpreadsheets ∨ meta.hasPresentations) ∧
       email.importanceScore < 7/10
    then min (email.importanceScore + 15/100) (85/100)
    else email.importanceScore
  .ok { email with
        attachmentMetadata := some meta
        labels := dedupFirst labels6
        deletableScore := del
        spamScore := spam
        importanceScore := imp }

/-! ### Sentiment analysis (keyword counting) -/

def positiveWords : List Str :=
  ["thank", "thanks", "appreciate", "good", "great", "excellent", "awesome",
   "happy", "pleased", "glad", "congratulations", "well done", "success"].map String.toList

def negativeWords : List Str :=
  ["issue", "problem", "error", "mistake", "fault", "wrong", "bad", "poor",
   "sorry", "apology", "unfortunate", "regret", "concern", "disappointing"].map String.toList

def urgentWords : List Str :=
  ["urgent", "immediately", "asap", "emergency", "critical", "important",
   "deadline", "priority", "crucial", "vital", "urgent attention"].map String.toList

/-- Whether an optional adjacent character is a `\w` character (`none` stands
for the start or end of the string, a non-word position). -/
def isWordOpt : Option Char → Bool
  | none => false
  | some c => isWordChar c

/-- Non-overlapping match count of `new RegExp('\\b' + word + '\\b', 'gi')`
against an already-lowercased content string: an occurrence of `word` whose
two ends sit at `\b` boundaries; after a match the scan resumes past it. -/
def countWordAux (word : Str) (prev : Option Char) (s : Str) : Nat :=
  match s with
  | [] => 0
  | c :: cs =>
    if h : word ≠ [] ∧ word <+: (c :: cs) ∧
        isWordOpt prev ≠ isWordChar (word.headD ' ') ∧
        isWordChar (word.getLastD ' ') ≠ isWordOpt ((c :: cs).drop word.length).head? then
      1 + countWordAux word (some (word.getLastD ' ')) ((c :: cs).drop word.length)
    else countWordAux word (some c) cs
  termination_by s.length
  decreasing_by
    · have hlen : word.length ≤ (c :: cs).length := h.2.1.length_le
      have hpos : 0 < word.length := List.length_pos.mpr h.1
      simp only [List.length_drop]
      omega
    · simp only [List.length_cons]
      omega

def countWord (content word : Str) : Nat :=
  countWordAux word none content

/-- Total match count for a word list. -/
def dictCount (contentLower : Str) (words : List Str) : Nat :=
  (words.map fun w => countWord contentLower w).sum

/-- JS `content.split(re).length` for the whitespace regex (JS keeps a leading/trailing empty
fragment when the string starts/ends with whitespace, and `"" → [""]`). -/
def wordCount (content : Str) : Nat :=
  if content = [] then 1
  else (wsRuns content).length
    + (if isSpace (content.headD ' ') then 1 else 0)
    + (if isSpace (content.getLastD ' ') then 1 else 0)

/-- The temporal-decay section at the end of `applySentimentAnalysis`:
(new `priorityScore`, `decayFactor`, `decayApplied`).  The decay reads the
unmodified `date` and `priorityScore` of the email being analyzed; an
unparsable date gives a NaN age in JS and `NaN > 3` is false (no decay). -/
def applyDecay (env : Env) (email : Email) : ℚ × ℚ × Bool :=
  match env.parseDate email.date with
  | none => (email.priorityScore, email.decayFactor, email.decayApplied)
  | some d =>
    let ageInDays := (env.now - d) / dayMs
    if ageInDays > 3 then
      let decayFactor := env.expFn (-(1/10) * (ageInDays - 3))
      let newPriority := email.priorityScore * decayFactor
      let minPriority := email.priorityScore * (3/10)
      (max newPriority minPriority, decayFactor, true)
    else (email.priorityScore, email.decayFactor, email.decayApplied)

/-- The text `applySentimentAnalysis` scans: summaries and title joined by
spaces. -/
def sentimentContent (email : Email) : Str :=
  email.autoSummary ++ [' '] ++ email.shortSummary ++ [' '] ++ email.title

/-- The (positive, negative, urgent) word-occurrence counts of
`applySentimentAnalysis`. -/
def sentimentCounts (email : Email) : Nat × Nat × Nat :=
  let contentLower := toLowerStr (sentimentContent email)
  (dictCount contentLower positiveWords, dictCount contentLower negativeWords,
   dictCount contentLower urgentWords)

/-- The `sentimentMetadata.emotionalContent` list: one tag per nonzero counter, in
scan order. -/
def sentimentEmotional (email : Email) : List Str :=
  (if (sentimentCounts email).1 > 0 then [("positive".toList)] else []) ++
  (if (sentimentCounts email).2.1 > 0 then [("negative".toList)] else []) ++
  (if (sentimentCounts email).2.2 > 0 then [("urgent".toList)] else [])

/-- The overall tone decision of `applySentimentAnalysis`. -/
def sentimentTone (email : Email) : Str :=
  let positiveCount := (sentimentCounts email).1
  let negativeCount := (sentimentCounts email).2.1
  let urgentCount := (sentimentCounts email).2.2
  if urgentCount > max positiveCount negativeCount then ("urgent".toList)
  else if (positiveCount : ℚ) > (negativeCount : ℚ) * (3/2) then ("positive".toList)
  else if (negativeCount : ℚ) > (positiveCount : ℚ) * (3/2) then ("negative".toList)
  else ("neutral".toList)

/-- The intensity decision of `applySentimentAnalysis` (emotional word
density over the whitespace-split word count). -/
def sentimentIntensity (email : Email) : Str :=
  let totalEmotionalWords :=
    (sentimentCounts email).1 + (sentimentCounts email).2.1 + (sentimentCounts email).2.2
  let contentWordCount := wordCount (sentimentContent email)
  let emotionalDensity : ℚ :=
    if contentWordCount > 0 then (totalEmotionalWords : ℚ) / (contentWordCount : ℚ) else 0
  if emotionalDensity > 1/10 then ("high".toList)
  else if emotionalDensity > 5/100 then ("moderate".toList)
  else ("low".toList)

/-- The urgency adjustment of `applySentimentAnalysis` (urgent tone bumps the
score by 0.2, or seeds it at 0.7 when it was falsy). -/
def sentimentUrgencyScore (email : Email) : ℚ :=
  if sentimentTone email = ("urgent".toList)
  then min (if email.urgencyScore ≠ 0 then email.urgencyScore + 2/10 else 7/10) 1
  else email.urgencyScore

/-- The importance adjustment of `applySentimentAnalysis` (urgent tone, or a
high-intensity negative tone, bumps the score by 0.1). -/
def sentimentImportanceScore (email : Email) : ℚ :=
  if sentimentTone email = ("urgent".toList) then min (email.importanceScore + 1/10) 1
  else if sentimentTone email = ("negative".toList) ∧ sentimentIntensity email = ("high".toList)
  then min (email.importanceScore + 1/10) 1
  else email.importanceScore

/-- Source `MailCacheService.applySentimentAnalysis`.  When the AI already set a
sentiment the email is returned unchanged — including the temporal-decay
section, which is only reached on the keyword-analysis branch.  On that
branch `if (!analyzedEmail.sentiment)` is necessarily true, so the computed
tone always becomes the stored sentiment. -/
def applySentimentAnalysis (env : Env) (email : Email) : Except Err Email :=
  if email._id = [] then .error (.missingParameter ("valid email object")) else
  if email.sentiment ≠ [] then .ok email else
  let decayed := applyDecay env email
  .ok { email with
        sentimentMetadata := some { tone := sentimentTone email
                                    intensity := sentimentIntensity email
                                    emotionalContent := sentimentEmotional email }
        sentiment := sentimentTone email
        urgencyScore := sentimentUrgencyScore email
        importanceScore := sentimentImportanceScore email
        priorityScore := decayed.1
        decayFactor := decayed.2.1
        decayApplied := decayed.2.2 }

/-- The per-message enrichment chain of `supplySummaries`: AI summarization,
advanced scoring, categorization, attachment processing, sentiment/decay. -/
def processEmail (env : Env) (ai : Option AiData) (email : Email) : Except Err Email := do
  let summarized ← enhancedSummarize ai email
  let scored ← applyAdvancedScoring env summarized
  let categorized ← categorizeEmail env scored
  let attachmentTagged ← processAttachments categorized
  applySentimentAnalysis env attachmentTagged

/-! ## Cache state operations -/

/-- Source `MailCacheService.get`: point lookup (`null` when the document is absent). -/
def MailCacheService.get (st : Store) (id : Str) : Except Err (Option Email) :=
  if id = [] then .error (.missingParameter ("id"))
  else .ok (lookupMail st id)

/-- Source `MailCacheService.getInbox`:
`(await firestore.read(USER_COLLECTION, key)).inbox` — when the read returns
`null` (no index document), the `.inbox` access throws a TypeError. -/
def getInbox (st : Store) : Except Err (List Str) :=
  match st.index with
  | none => .error (.typeError ("Cannot read properties of null"))
  | some cachedIds => .ok cachedIds.inbox

/-- Source `MailCacheService.getDeletables`: `cachedIds?.deletables || []`. -/
def getDeletables (st : Store) : List Str :=
  match st.index with
  | none => []
  | some cachedIds => cachedIds.deletables

/-- Source `MailCacheService.archive`: remove `id` from `inbox` (first occurrence,
`splice` after `indexOf`) and from `deletables` when present, then write the
index document once; the mail document is untouched. -/
def archive (st : Store) (id : Str) : Except Err Store :=
  if id = [] then .error (.missingParameter ("id"))
  else
    match st.index with
    | none => .error (.notFound ("Inbox not found"))
    | some cachedIds =>
      if id ∉ cachedIds.inbox then .error (.notFound ("Email not found in inbox"))
      else
        let inbox1 := cachedIds.inbox.erase id
        let deletables1 :=
          if id ∈ cachedIds.deletables then cachedIds.deletables.erase id
          else cachedIds.deletables
        .ok { st with index := some { cachedIds with
                inbox := inbox1
                deletables := deletables1 } }

/-- Source `MailCacheService.updateInbox`: load every inbox email, sort (stably) by
`priorityScore` descending, copy and re-sort by `deletableScore` descending,
persist both ID lists.  `none` models the TypeError a missing mail document
causes (`null.priorityScore` in the comparator / `null._id` in the map). -/
def updateInbox (st : Store) (cachedIds : CacheIndex) : Option Store :=
  match cachedIds.inbox.mapM (fun id => lookupMail st id) with
  | none => none
  | some emails =>
    let sortedP := emails.insertionSort fun a b => b.priorityScore ≤ a.priorityScore
    let sortedD := sortedP.insertionSort fun a b => b.deletableScore ≤ a.deletableScore
    some { st with index := some { cachedIds with
            inbox := sortedP.map (·._id)
            deletables := sortedD.map (·._id) } }

/-- One element of the `supplySummaries` batch loop: run the enrichment chain
on an email fetched from the cache.  After a successful enrichment the source
executes `processedEmails.push(sentimentAnalyzed)`, but no `processedEmails`
variable is declared anywhere in the module, so the statement raises a
ReferenceError — which the batch `catch` treats as a processing failure,
before `remainingIdsSet.delete(email._id)` is reached. -/
def processQueueItem (env : Env) (ai : Email → Option AiData) (email? : Option Email) :
    Except Err Email :=
  match email? with
  | none => .error (.missingParameter ("valid email object"))
  | some email => do
    let _ ← processEmail env (ai email) email
    .error (.referenceError ("processedEmails is not defined"))

/-- Source `MailCacheService.supplySummaries`: drain the summarization queue in
batches, keep the IDs whose processing failed (`remainingIdsSet`, a JS `Set`,
hence the first-occurrence dedup), and hand the updated index to
`updateInbox`.  `ai` gives the parsed AI reply for each email. -/
def supplySummaries (env : Env) (ai : Email → Option AiData) (st : Store) : Option Store :=
  match st.index with
  | none => some st
  | some cachedIds =>
    if cachedIds.summarizationQueue = [] then some st
    else
      let remaining := (dedupFirst cachedIds.summarizationQueue).filter fun id =>
        !(processQueueItem env ai (lookupMail st id)).isOk
      updateInbox st { cachedIds with summarizationQueue := remaining }

/-! ## Import pipeline -/

/-- A linked account as stored in the user document (only the fields
`importNewEmails` reads). -/
structure Account where
  type : Str
  token : Str
  deriving DecidableEq

/-- The environment of one `importNewEmails` run: the user's linked accounts
and the remote mailbox state (listing of the INBOX label and message fetch,
both per account). -/
structure ImportEnv where
  userId : Str
  accounts : List (Str × Account)
  listing : Str → List Str
  fetch : Str → Str → Email

/-- The user's Google accounts, in order. -/
def googleAccounts (env : ImportEnv) : List (Str × Account) :=
  env.accounts.filter fun p => decide (p.2.type = ("google".toList))

/-- The CachedMessage document written for a newly fetched email (provider
fields spread, identity fields and zeroed scores; `cachedAt` not modeled). -/
def mkCachedMessage (userId accountId emailId : Str) (data : Email) : Email :=
  { data with
    _id := composeId userId accountId emailId
    userId := userId
    accountId := accountId
    providerId := emailId
    importanceScore := 0
    spamScore := 0 }

/-- Accumulator of the per-account import loop. -/
structure ImpAcc where
  inbox : List Str
  newIds : List Str
  writes : List (Str × Email)
  deriving DecidableEq

/-- One iteration of the account loop of `importNewEmails`: list the INBOX
label, extend the rebuilt inbox, fetch and write the messages whose composite
ID is not yet in the `ids` ledger.  `none` models the missing-refresh-token
throw. -/
def importAccount (env : ImportEnv) (ids0 : List Str) (acc : ImpAcc) (aid : Str)
    (ad : Account) : Option ImpAcc :=
  if ad.token = [] then none
  else
    let emailIds := env.listing aid
    let newEmailIds := emailIds.filter fun e =>
      !(decide (composeId env.userId aid e ∈ ids0))
    some { inbox := acc.inbox ++ emailIds.map (composeId env.userId aid)
           newIds := acc.newIds ++ newEmailIds.map (composeId env.userId aid)
           writes := acc.writes ++ newEmailIds.map fun e =>
             (composeId env.userId aid e, mkCachedMessage env.userId aid e (env.fetch aid e)) }

/-- The account loop of `importNewEmails`. -/
def importAccounts (env : ImportEnv) (ids0 : List Str) :
    List (Str × Account) → ImpAcc → Option ImpAcc
  | [], acc => some acc
  | (aid, ad) :: rest, acc =>
    match importAccount env ids0 acc aid ad with
    | none => none
    | some acc1 => importAccounts env ids0 rest acc1

/-- Apply a list of mail-document writes in order. -/
def applyWrites (st : Store) (ws : List (Str × Email)) : Store :=
  ws.foldl (fun s p => writeMail s p.1 p.2) st

/-- Source `MailCacheService.importNewEmails`.  Returns the resulting store and the
list of mail documents written; `none` models the missing-refresh-token
throw.  With no linked Google account the function returns before any write.
The final index write carries only `ids`, `inbox`, `newMail` and
`summarizationQueue` — the previous `deletables` list is dropped (the
document is replaced). -/
def importNewEmails (env : ImportEnv) (st : Store) :
    Option (Store × List (Str × Email)) :=
  let cachedIds := st.index.getD emptyIndex
  if googleAccounts env = [] then some (st, [])
  else
    match importAccounts env cachedIds.ids (googleAccounts env) ⟨[], [], []⟩ with
    | none => none
    | some acc =>
      let idx1 : CacheIndex :=
        { ids := cachedIds.ids ++ acc.newIds
          inbox := acc.inbox
          deletables := []
          newMail := cachedIds.newMail ++ acc.newIds
          summarizationQueue := cachedIds.summarizationQueue ++ acc.newIds }
      some ({ index := some idx1, mail := (applyWrites st acc.writes).mail }, acc.writes)

/-- The provider IDs of one account's listing that are new relative to a
ledger `ids0` (the filter inside `importAccount`). -/
def accountNew (env : ImportEnv) (ids0 : List Str) (aid : Str) : List Str :=
  (env.listing aid).filter fun e => !(decide (composeId env.userId aid e ∈ ids0))

/-- The rebuilt inbox contributed by a list of accounts. -/
def deltaInbox (env : ImportEnv) : List (Str × Account) → List Str
  | [] => []
  | (aid, _) :: rest =>
    (env.listing aid).map (composeId env.userId aid) ++ deltaInbox env rest

/-- The new composite IDs contributed by a list of accounts. -/
def deltaNewIds (env : ImportEnv) (ids0 : List Str) : List (Str × Account) → List Str
  | [] => []
  | (aid, _) :: rest =>
    (accountNew env ids0 aid).map (composeId env.userId aid) ++ deltaNewIds env ids0 rest

/-- The mail-document writes contributed by a list of accounts. -/
def deltaWrites (env : ImportEnv) (ids0 : List Str) : List (Str × Account) → List (Str × Email)
  | [] => []
  | (aid, _) :: rest =>
    (accountNew env ids0 aid).map (fun e =>
      (composeId env.userId aid e, mkCachedMessage env.userId aid e (env.fetch aid e))) ++
    deltaWrites env ids0 rest

/-- The clamp of a value to [0, 1]: `clamp(v, 0, 1)`. -/
def clamp01 (x : ℚ) : ℚ := max 0 (min x 1)

/-- The shared concrete environment used by the witnesses: a fixed clock,
every date string parsing to the epoch, and a fixed value for `Math.exp`. -/
def testEnv : Env where
  userId := ("user".toList)
  contacts := ("Bob <bob@x.com>".toList)
  now := 864000000
  parseDate := fun _ => some 0
  expFn := fun _ => 1/2

/-! ### Concrete inputs used by the witnesses and counterexamples -/

/-- The concrete index and store used by the archive witness. -/
def c4Index : CacheIndex where
  ids := [("m1".toList), ("m2".toList)]
  inbox := [("m1".toList), ("m2".toList)]
  deletables := [("m2".toList), ("m1".toList)]
  newMail := []
  summarizationQueue := []

def c4Store : Store :=
  { index := some c4Index, mail := [(("m1".toList), emptyEmail)] }

/-- The email the advanced-scoring witness runs on. -/
def c7Email : Email :=
  { emptyEmail with
    _id := ("id1".toList)
    importanceScore := 9/10
    sentiment := ("Urgent".toList)
    actionItems := [("reply today".toList)] }

/-- The record advanced scoring produces on `c7Email`. -/
def c7Result : Email :=
  (applyAdvancedScoring testEnv c7Email).toOption.getD emptyEmail

/-- The concrete store and index for the `updateInbox` witness: two cached
messages with distinct priority and deletable orders. -/
def c8EmailA : Email :=
  { emptyEmail with _id := ("a".toList), priorityScore := 2/10, deletableScore := 9/10 }

def c8EmailB : Email :=
  { emptyEmail with _id := ("b".toList), priorityScore := 8/10, deletableScore := 1/10 }

def c8Index : CacheIndex :=
  { emptyIndex with inbox := [("a".toList), ("b".toList)] }

def c8Store : Store :=
  { index := some c8Index, mail := [(("a".toList), c8EmailA), (("b".toList), c8EmailB)] }

def c8Result : Store :=
  (updateInbox c8Store c8Index).getD { index := none, mail := [] }

/-- The counterexample email: AI sentiment present, 10 days old. -/
def c2Email : Email :=
  { emptyEmail with
    _id := ("id2".toList)
    date := ("2000-01-01".toList)
    sentiment := ("Neutral".toList)
    priorityScore := 8/10 }

/-- The witness email for the decay branch: no AI sentiment, 10 days old. -/
def c2EmailNoSentiment : Email :=
  { emptyEmail with
    _id := ("id3".toList)
    date := ("2000-01-01".toList)
    priorityScore := 1/2 }

/-- A valid AI reply for the C3 message. -/
def c3Ai : AiData where
  extendedSummary := ("s".toList)
  shortSummary := []
  actionItems := []
  keyPeople := []
  deadlines := []
  importanceScore := 1/2
  spamScore := 0
  category := ("Business".toList)
  sentiment := ("Neutral".toList)

/-- The cached message sitting in the summarization queue. -/
def c3Email : Email :=
  { emptyEmail with _id := ("m1".toList), date := ("2000-01-01".toList) }

/-- A store whose index has exactly `m1` queued for summarization. -/
def c3Store : Store where
  index := some { emptyIndex with
    ids := [("m1".toList)]
    summarizationQueue := [("m1".toList)] }
  mail := [(("m1".toList), c3Email)]

def c3Result : Store :=
  (supplySummaries testEnv (fun _ => some c3Ai) c3Store).getD { index := none, mail := [] }

def c3ResultIdx : CacheIndex :=
  c3Result.index.getD emptyIndex

/-- The remote environment of the import witness: one Google account whose
INBOX lists one message. -/
def c6Env : ImportEnv where
  userId := ("user0001x".toList)
  accounts := [(("a1".toList), { type := ("google".toList), token := ("tok".toList) })]
  listing := fun _ => [("p1".toList)]
  fetch := fun _ _ => emptyEmail

def c6Run1 : Store × List (Str × Email) :=
  (importNewEmails c6Env { index := none, mail := [] }).getD ({ index := none, mail := [] }, [])

/-- The AI reply of the C1 counterexample: maximal spam score, promotional
category, neutral sentiment. -/
def c1Ai : AiData where
  extendedSummary := ("s".toList)
  shortSummary := []
  actionItems := []
  keyPeople := []
  deadlines := []
  importanceScore := 0
  spamScore := 1
  category := ("Promotional".toList)
  sentiment := ("Neutral".toList)

/-- The C1 counterexample message: an invoice-titled email. -/
def c1Email : Email :=
  { emptyEmail with
    _id := ("m2".toList)
    date := ("2000-01-01".toList)
    title := ("invoice".toList) }

def c1Result : Email :=
  (processEmail testEnv (some c1Ai) c1Email).toOption.getD emptyEmail

/-! ## Supporting lemmas -/

theorem splitOnChar_append_sep (sep : Char) (a b : Str) (ha : sep ∉ a) :
    splitOnChar sep (a ++ sep :: b) = a :: splitOnChar sep b := by
  induction a with
  | nil => simp [splitOnChar]
  | cons c cs ih =>
    have hc : c ≠ sep := by
      intro h; exact ha (h ▸ List.mem_cons_self c cs)
    have hcs : sep ∉ cs := fun h => ha (List.mem_cons_of_mem c h)
    simp only [List.cons_append, splitOnChar, if_neg hc, List.append_eq]
    rw [ih hcs]

theorem splitOnChar_no_sep (sep : Char) (a : Str) (ha : sep ∉ a) :
    splitOnChar sep a = [a] := by
  induction a with
  | nil => rfl
  | cons c cs ih =>
    have hc : c ≠ sep := by
      intro h; exact ha (h ▸ List.mem_cons_self c cs)
    have hcs : sep ∉ cs := fun h => ha (List.mem_cons_of_mem c h)
    simp only [splitOnChar, if_neg hc, ih hcs]

/-! ## Claim C5 — composite ID codec -/

/-- C5 (amended): for every `accountId` and `providerId` free of `#`, and a
user ID whose first 8 characters are also free of `#`, decomposing the
composite ID recovers exactly the user prefix, account ID and provider ID;
and `decomposeId` fails with `MalformedIdError` on any string splitting into
fewer than three `#`-separated parts. -/
theorem composeId_decomposeId_roundtrip :
    (∀ userId accountId providerId : Str,
        '#' ∉ userId.take 8 → '#' ∉ accountId → '#' ∉ providerId →
        decomposeId (composeId userId accountId providerId) =
          .ok ⟨userId.take 8, accountId, providerId⟩) ∧
    (∀ id : Str, (splitOnChar '#' id).length < 3 →
        decomposeId id = .error .malformedId) := by
  constructor
  · intro u a p hu ha hp
    have hsplit : splitOnChar '#' (composeId u a p) = [u.take 8, a, p] := by
      have : composeId u a p = u.take 8 ++ '#' :: (a ++ '#' :: p) := by
        simp [composeId]
      rw [this, splitOnChar_append_sep _ _ _ hu, splitOnChar_append_sep _ _ _ ha,
          splitOnChar_no_sep _ _ hp]
    simp [decomposeId, hsplit]
  · intro id h
    simp [decomposeId, h]

/-! ## Claim C9 — reads against a missing index document -/

/-- C9: when no index document exists for the user, `getDeletables` returns
the empty sequence while `getInbox` fails by dereferencing the `null` read
result. -/
theorem getInbox_getDeletables_null_index (st : Store) (h : st.index = none) :
    getDeletables st = [] ∧ ∃ msg, getInbox st = .error (.typeError msg) := by
  unfold getDeletables getInbox
  rw [h]
  exact ⟨rfl, _, rfl⟩

/-! ## Claim C10 — import with no linked Google account -/

/-- C10: with no linked Google account, `importNewEmails` returns without
performing any write: the store (index document and mail collection) is
exactly the input store and the list of written mail documents is empty,
also when no index document existed before the call. -/
theorem importNewEmails_no_google_accounts_noop (env : ImportEnv) (st : Store)
    (h : googleAccounts env = []) :
    importNewEmails env st = some (st, []) := by
  unfold importNewEmails
  rw [h]
  simp

/-! ## Claim C4 — archive -/

/-- C4: on a well-formed index (`inbox`/`deletables` without duplicates, as
the view invariant guarantees), archiving an ID that is in `inbox` performs a
single index write after which the ID is absent from both `inbox` and
`deletables`, with the `ids` ledger, the queues and the whole mail collection
untouched (so the message remains retrievable via `get`); archiving an ID not
in `inbox` fails with a not-found error. -/
theorem archive_spec (st : Store) (cachedIds : CacheIndex) (id : Str)
    (hidx : st.index = some cachedIds) (hid : id ≠ [])
    (hnI : cachedIds.inbox.Nodup) (hnD : cachedIds.deletables.Nodup) :
    (id ∈ cachedIds.inbox →
      ∃ idx1, archive st id = .ok { index := some idx1, mail := st.mail } ∧
        id ∉ idx1.inbox ∧ id ∉ idx1.deletables ∧
        idx1.ids = cachedIds.ids ∧ idx1.newMail = cachedIds.newMail ∧
        idx1.summarizationQueue = cachedIds.summarizationQueue ∧
        MailCacheService.get { index := some idx1, mail := st.mail } id =
          MailCacheService.get st id) ∧
    (id ∉ cachedIds.inbox → ∃ msg, archive st id = .error (.notFound msg)) := by
  constructor
  · intro hmem
    have hnotnot : ¬ (id ∉ cachedIds.inbox) := fun h => h hmem
    refine ⟨{ cachedIds with
              inbox := cachedIds.inbox.erase id
              deletables := if id ∈ cachedIds.deletables then cachedIds.deletables.erase id
                else cachedIds.deletables }, ?_, ?_, ?_, rfl, rfl, rfl, ?_⟩
    · unfold archive
      rw [if_neg hid, hidx]
      exact if_neg hnotnot
    · intro h
      exact ((List.Nodup.mem_erase_iff hnI).mp h).1 rfl
    · by_cases hd : id ∈ cachedIds.deletables
      · rw [if_pos hd]
        intro h
        exact ((List.Nodup.mem_erase_iff hnD).mp h).1 rfl
      · rw [if_neg hd]
        exact hd
    · unfold MailCacheService.get
      rw [if_neg hid, if_neg hid]
      rfl
  · intro hmem
    refine ⟨"Email not found in inbox", ?_⟩
    unfold archive
    rw [if_neg hid, hidx]
    exact if_pos hmem

/-! ## Claim C7 — priority formula and tiers -/

theorem priorityLabelOf_spec (p : ℚ) :
    (p ≥ 8/10 → priorityLabelOf p = ("Critical".toList)) ∧
    (p < 8/10 → p ≥ 6/10 → priorityLabelOf p = ("High".toList)) ∧
    (p < 6/10 → p ≥ 4/10 → priorityLabelOf p = ("Medium".toList)) ∧
    (p < 4/10 → p ≥ 2/10 → priorityLabelOf p = ("Low".toList)) ∧
    (p < 2/10 → priorityLabelOf p = ("Minimal".toList)) := by
  unfold priorityLabelOf
  refine ⟨fun h1 => ?_, fun h1 h2 => ?_, fun h1 h2 => ?_, fun h1 h2 => ?_, fun h1 => ?_⟩ <;>
    split_ifs <;> first | rfl | linarith

/-- C7: after advanced scoring, `priorityScore` is exactly
`clamp(0.7·importanceScore + 0.3·urgencyScore − 0.5·deletableScore, 0, 1)`
of the message's post-adjustment scores, and `priorityLabel` follows the
documented tiers. -/
theorem applyAdvancedScoring_priority_formula (env : Env) (email r : Email)
    (h : applyAdvancedScoring env email = .ok r) :
    r.priorityScore = clamp01 ((7/10) * r.importanceScore + (3/10) * r.urgencyScore
      - (5/10) * r.deletableScore) ∧
    (r.priorityScore ≥ 8/10 → r.priorityLabel = ("Critical".toList)) ∧
    (r.priorityScore < 8/10 → r.priorityScore ≥ 6/10 → r.priorityLabel = ("High".toList)) ∧
    (r.priorityScore < 6/10 → r.priorityScore ≥ 4/10 → r.priorityLabel = ("Medium".toList)) ∧
    (r.priorityScore < 4/10 → r.priorityScore ≥ 2/10 → r.priorityLabel = ("Low".toList)) ∧
    (r.priorityScore < 2/10 → r.priorityLabel = ("Minimal".toList)) := by
  unfold applyAdvancedScoring at h
  split at h
  · exact absurd h (by simp)
  · have hr := Except.ok.inj h
    subst hr
    refine ⟨?_, (priorityLabelOf_spec _).1, (priorityLabelOf_spec _).2.1,
      (priorityLabelOf_spec _).2.2.1, (priorityLabelOf_spec _).2.2.2.1,
      (priorityLabelOf_spec _).2.2.2.2⟩
    exact max_comm _ _

/-! ## Claim C8 — view invariant after updateInbox -/

/-- C8: whenever `updateInbox` completes, the persisted `inbox` and
`deletables` lists are the ID images of two permutations of the same email
list — so they hold exactly the same IDs — with the priority view pairwise
ordered by `priorityScore` descending and the deletable view pairwise
ordered by `deletableScore` descending. -/
theorem updateInbox_views_spec (st : Store) (cachedIds : CacheIndex) (st1 : Store)
    (h : updateInbox st cachedIds = some st1) :
    ∃ (idx1 : CacheIndex) (esP esD : List Email), st1.index = some idx1 ∧
      idx1.inbox = esP.map Email._id ∧ idx1.deletables = esD.map Email._id ∧
      esP.Perm esD ∧ idx1.inbox.Perm idx1.deletables ∧
      esP.Pairwise (fun a b => b.priorityScore ≤ a.priorityScore) ∧
      esD.Pairwise (fun a b => b.deletableScore ≤ a.deletableScore) := by
  haveI hTP : IsTotal Email (fun a b => b.priorityScore ≤ a.priorityScore) :=
    ⟨fun a b => (le_total b.priorityScore a.priorityScore)⟩
  haveI hTD : IsTotal Email (fun a b => b.deletableScore ≤ a.deletableScore) :=
    ⟨fun a b => (le_total b.deletableScore a.deletableScore)⟩
  haveI hRP : IsTrans Email (fun a b => b.priorityScore ≤ a.priorityScore) :=
    ⟨fun _ _ _ hab hbc => le_trans hbc hab⟩
  haveI hRD : IsTrans Email (fun a b => b.deletableScore ≤ a.deletableScore) :=
    ⟨fun _ _ _ hab hbc => le_trans hbc hab⟩
  unfold updateInbox at h
  rcases hmem : cachedIds.inbox.mapM (fun id => lookupMail st id) with _ | emails
  · rw [hmem] at h
    exact absurd h (by simp)
  · rw [hmem] at h
    injection h with h
    subst h
    refine ⟨_, emails.insertionSort (fun a b => b.priorityScore ≤ a.priorityScore),
      (emails.insertionSort (fun a b => b.priorityScore ≤ a.priorityScore)).insertionSort
        (fun a b => b.deletableScore ≤ a.deletableScore),
      rfl, rfl, rfl, ?_, ?_, ?_, ?_⟩
    · exact (List.perm_insertionSort _ _).symm
    · exact List.Perm.map _ (List.perm_insertionSort _ _).symm
    · exact List.sorted_insertionSort _ _
    · exact List.sorted_insertionSort _ _

/-! ## Claim C2 — temporal decay in the sentiment pass -/

/-- C2 (amended): temporal decay is applied only when the AI did not set a
sentiment.  When `sentiment` is already present the pass returns the message
unchanged (no decay applied or recorded); when it is absent and the parsed
age exceeds 3 days, `priorityScore` is multiplied by the recorded
`decayFactor = exp(-0.1 * (ageDays - 3))` and floored at 30% of its
pre-decay value, with `decayApplied` set. -/
theorem applySentimentAnalysis_decay_spec (env : Env) (email : Email)
    (hid : email._id ≠ []) :
    (email.sentiment ≠ [] → applySentimentAnalysis env email = .ok email) ∧
    (∀ d : ℚ, email.sentiment = [] → env.parseDate email.date = some d →
      (env.now - d) / dayMs > 3 →
      ∃ r, applySentimentAnalysis env email = .ok r ∧
        r.decayFactor = env.expFn (-(1/10) * ((env.now - d) / dayMs - 3)) ∧
        r.decayApplied = true ∧
        r.priorityScore = max (email.priorityScore * r.decayFactor)
          (email.priorityScore * (3/10))) := by
  constructor
  · intro hsent
    unfold applySentimentAnalysis
    rw [if_neg hid, if_pos hsent]
  · intro d hsent hparse hage
    have hdec : applyDecay env email =
        (max (email.priorityScore * env.expFn (-(1/10) * ((env.now - d) / dayMs - 3)))
           (email.priorityScore * (3/10)),
         env.expFn (-(1/10) * ((env.now - d) / dayMs - 3)), true) := by
      unfold applyDecay
      rw [hparse]
      exact if_pos hage
    unfold applySentimentAnalysis
    rw [if_neg hid, if_neg (not_not_intro hsent)]
    refine ⟨_, rfl, ?_, ?_, ?_⟩
    · simp only [hdec]
    · simp only [hdec]
    · simp only [hdec]

/-! ## Claim C6 — idempotent import -/

theorem importAccounts_run (env : ImportEnv) (ids0 : List Str)
    (l : List (Str × Account)) (acc : ImpAcc)
    (htok : ∀ p ∈ l, p.2.token ≠ []) :
    importAccounts env ids0 l acc = some
      { inbox := acc.inbox ++ deltaInbox env l
        newIds := acc.newIds ++ deltaNewIds env ids0 l
        writes := acc.writes ++ deltaWrites env ids0 l } := by
  induction l generalizing acc with
  | nil => simp [importAccounts, deltaInbox, deltaNewIds, deltaWrites]
  | cons p rest ih =>
    obtain ⟨aid, ad⟩ := p
    have htokHd : ad.token ≠ [] := htok (aid, ad) (List.mem_cons_self _ _)
    have htokTl : ∀ p ∈ rest, p.2.token ≠ [] := fun p hp => htok p (List.mem_cons_of_mem _ hp)
    unfold importAccounts importAccount
    rw [if_neg htokHd]
    show importAccounts env ids0 rest _ = _
    rw [ih _ htokTl]
    simp [accountNew, deltaInbox, deltaNewIds, deltaWrites, List.append_assoc]

theorem mem_deltaNewIds (env : ImportEnv) (ids0 : List Str)
    (l : List (Str × Account)) (aid : Str) (ad : Account) (c : Str)
    (hmem : (aid, ad) ∈ l) (hc : c ∈ (accountNew env ids0 aid).map (composeId env.userId aid)) :
    c ∈ deltaNewIds env ids0 l := by
  induction l with
  | nil => cases hmem
  | cons p rest ih =>
    obtain ⟨bid, bd⟩ := p
    simp only [deltaNewIds]
    rcases List.mem_cons.mp hmem with heq | htl
    · injection heq with h1 h2
      subst h1
      exact List.mem_append_left _ hc
    · exact List.mem_append_right _ (ih htl)

theorem accountNew_second_run (env : ImportEnv) (ids0 : List Str)
    (l : List (Str × Account)) (aid : Str) (ad : Account) (hmem : (aid, ad) ∈ l) :
    accountNew env (ids0 ++ deltaNewIds env ids0 l) aid = [] := by
  unfold accountNew
  rw [List.filter_eq_nil_iff]
  intro e he
  simp only [Bool.not_eq_true', decide_eq_false_iff_not, not_not]
  by_cases h0 : composeId env.userId aid e ∈ ids0
  · exact List.mem_append_left _ h0
  · refine List.mem_append_right _ (mem_deltaNewIds env ids0 l aid ad _ hmem ?_)
    exact List.mem_map_of_mem _ (List.mem_filter.mpr ⟨he, by simpa using h0⟩)

theorem delta_second_run (env : ImportEnv) (ids1 : List Str)
    (l : List (Str × Account))
    (hnone : ∀ aid ad, (aid, ad) ∈ l → accountNew env ids1 aid = []) :
    deltaNewIds env ids1 l = [] ∧ deltaWrites env ids1 l = [] := by
  induction l with
  | nil => exact ⟨rfl, rfl⟩
  | cons p rest ih =>
    obtain ⟨aid, ad⟩ := p
    have h1 := hnone aid ad (List.mem_cons_self _ _)
    have h2 := ih fun a b hm => hnone a b (List.mem_cons_of_mem _ hm)
    unfold deltaNewIds deltaWrites
    rw [h1, h2.1, h2.2]
    simp

/-- C6: running `importNewEmails` twice with the remote mailbox unchanged is
idempotent: the second run reproduces the first run's store exactly — in
particular an identical `ids` sequence — and writes no mail document at all
(nothing is fetched or stored twice). -/
theorem importNewEmails_idempotent (env : ImportEnv) (st st1 : Store)
    (w1 : List (Str × Email))
    (htok : ∀ p ∈ googleAccounts env, p.2.token ≠ [])
    (h1 : importNewEmails env st = some (st1, w1)) :
    importNewEmails env st1 = some (st1, []) := by
  by_cases hg : googleAccounts env = []
  · unfold importNewEmails
    rw [if_pos hg]
  · unfold importNewEmails at h1
    rw [if_neg hg, importAccounts_run env _ _ _ htok] at h1
    injection h1 with h1
    have hst1 : st1 = _ := ((Prod.mk.injEq .. ▸ h1 : _ ∧ _).1).symm
    subst hst1
    unfold importNewEmails
    rw [if_neg hg]
    have hids1 : ∀ aid ad, (aid, ad) ∈ googleAccounts env →
        accountNew env ((st.index.getD emptyIndex).ids ++
          deltaNewIds env (st.index.getD emptyIndex).ids (googleAccounts env)) aid = [] :=
      fun aid ad hm => accountNew_second_run env _ _ aid ad hm
    have hdelta := delta_second_run env _ (googleAccounts env)
      (fun aid ad hm => hids1 aid ad hm)
    rw [importAccounts_run env _ _ _ htok]
    simp only [Option.some.injEq, Option.getD_some, List.nil_append]
    rw [hdelta.1, hdelta.2]
    simp [applyWrites]

/-! ## Claim C1 — score bounds through the enrichment pipeline -/

theorem exceptBind_ok {ε α β : Type} (x : Except ε α) (f : α → Except ε β) (b : β)
    (h : (x >>= f) = .ok b) : ∃ a, x = .ok a ∧ f a = .ok b := by
  cases x with
  | error e => exact Except.noConfusion h
  | ok a => exact ⟨a, rfl, h⟩

theorem enhancedSummarize_bounds (ai : Option AiData) (email r : Email)
    (h : enhancedSummarize ai email = .ok r) :
    0 ≤ r.importanceScore ∧ r.importanceScore ≤ 1 ∧
    0 ≤ r.spamScore ∧ r.spamScore ≤ 1 := by
  unfold enhancedSummarize at h
  split at h
  · exact absurd h (by simp)
  · split at h
    · exact absurd h (by simp)
    next data =>
      split at h
      next hvalid =>
        injection h with h
        subst h
        exact ⟨hvalid.1, hvalid.2.1, hvalid.2.2.1, hvalid.2.2.2⟩
      · exact absurd h (by simp)

theorem advUrgencyRaw_nonneg (env : Env) (email : Email) :
    0 ≤ advUrgencyRaw env email := by
  have hmin : 0 ≤ min ((email.actionItems.length : ℚ) * (5/100)) (3/10) :=
    le_min (by positivity) (by norm_num)
  simp only [advUrgencyRaw]
  split_ifs <;> linarith

theorem advDeletableRaw_nonneg (email : Email) : 0 ≤ advDeletableRaw email := by
  have hlab : 0 ≤ (15/100 : ℚ) *
      (((email.labels.filter fun l => decide (l ∈ deletableLabels)).length : ℕ) : ℚ) := by
    positivity
  simp only [advDeletableRaw]
  split_ifs <;> linarith

theorem advImportance_bounds (email : Email) (h0 : 0 ≤ email.importanceScore)
    (h1 : email.importanceScore ≤ 1) :
    0 ≤ advImportance email ∧ advImportance email ≤ 1 := by
  have hA : 0 ≤ min (email.importanceScore + 1/10) 1 := le_min (by linarith) (by norm_num)
  have hB : min (email.importanceScore + 1/10) 1 ≤ 1 := min_le_right _ _
  simp only [advImportance]
  split_ifs <;>
    refine ⟨?_, ?_⟩ <;>
    first
      | exact h0
      | exact h1
      | exact min_le_right _ _
      | exact le_min (by linarith) (by norm_num)

theorem applyAdvancedScoring_bounds (env : Env) (email r : Email)
    (h : applyAdvancedScoring env email = .ok r)
    (h0 : 0 ≤ email.importanceScore) (h1 : email.importanceScore ≤ 1) :
    0 ≤ r.importanceScore ∧ r.importanceScore ≤ 1 ∧
    0 ≤ r.urgencyScore ∧ r.urgencyScore ≤ 1 ∧
    0 ≤ r.deletableScore ∧ r.deletableScore ≤ 1 ∧
    0 ≤ r.priorityScore ∧ r.priorityScore ≤ 1 ∧
    r.spamScore = email.spamScore := by
  unfold applyAdvancedScoring at h
  split at h
  · exact absurd h (by simp)
  · injection h with h
    subst h
    refine ⟨(advImportance_bounds email h0 h1).1, (advImportance_bounds email h0 h1).2,
      le_min (advUrgencyRaw_nonneg env email) zero_le_one, min_le_right _ _,
      le_min (advDeletableRaw_nonneg email) zero_le_one, min_le_right _ _,
      le_max_right _ _, max_le (min_le_right _ _) zero_le_one, rfl⟩

theorem iteNonneg (c : Prop) [inst : Decidable c] (x y : ℚ) (hx : 0 ≤ x) (hy : 0 ≤ y) :
    0 ≤ if c then x else y := by
  split_ifs <;> assumption

theorem iteLe (c : Prop) [inst : Decidable c] (x y z : ℚ) (hx : x ≤ z) (hy : y ≤ z) :
    (if c then x else y) ≤ z := by
  split_ifs <;> assumption

theorem iteOr (c : Prop) [inst : Decidable c] (base add : ℚ) :
    base + (if c then add else 0) = base ∨ base + (if c then add else 0) = base + add := by
  split_ifs
  · exact Or.inr rfl
  · exact Or.inl (by ring)

theorem categorizeEmail_scores (env : Env) (email r : Email)
    (h : categorizeEmail env email = .ok r) :
    r.importanceScore = email.importanceScore ∧ r.spamScore = email.spamScore ∧
    r.urgencyScore = email.urgencyScore ∧ r.priorityScore = email.priorityScore ∧
    (r.deletableScore = email.deletableScore ∨
      r.deletableScore = email.deletableScore + 4/10) := by
  unfold categorizeEmail at h
  split at h
  · exact absurd h (by simp)
  · injection h with h
    rw [← h]
    exact ⟨rfl, rfl, rfl, rfl, iteOr _ _ _⟩

theorem processAttachments_bounds (email r : Email)
    (h : processAttachments email = .ok r)
    (hi0 : 0 ≤ email.importanceScore) (hi1 : email.importanceScore ≤ 1)
    (hs0 : 0 ≤ email.spamScore) (hs1 : email.spamScore ≤ 1) :
    0 ≤ r.importanceScore ∧ r.importanceScore ≤ 1 ∧
    0 ≤ r.spamScore ∧ r.spamScore ≤ 1 ∧
    r.urgencyScore = email.urgencyScore ∧ r.priorityScore = email.priorityScore ∧
    (r.deletableScore = email.deletableScore ∨
      r.deletableScore = email.deletableScore + 3/10) := by
  unfold processAttachments at h
  split at h
  · exact absurd h (by simp)
  · split at h
    · injection h with h
      subst h
      exact ⟨hi0, hi1, hs0, hs1, rfl, rfl, Or.inl rfl⟩
    · injection h with h
      rw [← h]
      refine ⟨?_, ?_, ?_, ?_, rfl, rfl, iteOr _ _ _⟩
      · exact iteNonneg _ _ _ (le_min (by linarith) (by norm_num)) hi0
      · exact iteLe _ _ _ _ (le_trans (min_le_right _ _) (by norm_num)) hi1
      · exact iteNonneg _ _ _ (le_min (by linarith) (by norm_num)) hs0
      · exact iteLe _ _ _ _ (min_le_right _ _) hs1

theorem applyDecay_bounds (env : Env) (email : Email)
    (hexp : ∀ x : ℚ, x ≤ 0 → 0 ≤ env.expFn x ∧ env.expFn x ≤ 1)
    (hp0 : 0 ≤ email.priorityScore) (hp1 : email.priorityScore ≤ 1) :
    0 ≤ (applyDecay env email).1 ∧ (applyDecay env email).1 ≤ 1 := by
  unfold applyDecay
  cases hp : env.parseDate email.date with
  | none => exact ⟨hp0, hp1⟩
  | some d =>
    simp only []
    split_ifs with hage
    · have harg : -(1/10 : ℚ) * ((env.now - d) / dayMs - 3) ≤ 0 := by
        have : (0:ℚ) < (env.now - d) / dayMs - 3 := by linarith
        linarith
      obtain ⟨hf0, hf1⟩ := hexp _ harg
      constructor
      · exact le_max_of_le_right (by positivity)
      · exact max_le (mul_le_one₀ hp1 hf0 hf1) (by linarith)
    · exact ⟨hp0, hp1⟩

theorem sentimentUrgencyScore_bounds (email : Email)
    (hu0 : 0 ≤ email.urgencyScore) (hu1 : email.urgencyScore ≤ 1) :
    0 ≤ sentimentUrgencyScore email ∧ sentimentUrgencyScore email ≤ 1 := by
  unfold sentimentUrgencyScore
  constructor
  · exact iteNonneg _ _ _
      (le_min (iteNonneg _ _ _ (by linarith) (by norm_num)) zero_le_one) hu0
  · exact iteLe _ _ _ _ (min_le_right _ _) hu1

theorem sentimentImportanceScore_bounds (email : Email)
    (hi0 : 0 ≤ email.importanceScore) (hi1 : email.importanceScore ≤ 1) :
    0 ≤ sentimentImportanceScore email ∧ sentimentImportanceScore email ≤ 1 := by
  unfold sentimentImportanceScore
  constructor
  · exact iteNonneg _ _ _ (le_min (by linarith) (by norm_num))
      (iteNonneg _ _ _ (le_min (by linarith) (by norm_num)) hi0)
  · exact iteLe _ _ _ _ (min_le_right _ _) (iteLe _ _ _ _ (min_le_right _ _) hi1)

section SentimentOpaque

-- Keep elaboration-time reduction from descending into the keyword-scanning
-- machinery while the record-level lemma is checked.
attribute [local irreducible] sentimentTone sentimentIntensity sentimentEmotional
  sentimentUrgencyScore sentimentImportanceScore applyDecay

theorem applySentimentAnalysis_bounds (env : Env) (email r : Email)
    (h : applySentimentAnalysis env email = .ok r)
    (hexp : ∀ x : ℚ, x ≤ 0 → 0 ≤ env.expFn x ∧ env.expFn x ≤ 1)
    (hi0 : 0 ≤ email.importanceScore) (hi1 : email.importanceScore ≤ 1)
    (hu0 : 0 ≤ email.urgencyScore) (hu1 : email.urgencyScore ≤ 1)
    (hp0 : 0 ≤ email.priorityScore) (hp1 : email.priorityScore ≤ 1) :
    0 ≤ r.importanceScore ∧ r.importanceScore ≤ 1 ∧
    0 ≤ r.urgencyScore ∧ r.urgencyScore ≤ 1 ∧
    0 ≤ r.priorityScore ∧ r.priorityScore ≤ 1 ∧
    r.spamScore = email.spamScore ∧ r.deletableScore = email.deletableScore := by
  unfold applySentimentAnalysis at h
  split at h
  · exact absurd h (by simp)
  · split at h
    · injection h with h
      subst h
      exact ⟨hi0, hi1, hu0, hu1, hp0, hp1, rfl, rfl⟩
    · injection h with h
      rw [← h]
      exact ⟨(sentimentImportanceScore_bounds email hi0 hi1).1,
        (sentimentImportanceScore_bounds email hi0 hi1).2,
        (sentimentUrgencyScore_bounds email hu0 hu1).1,
        (sentimentUrgencyScore_bounds email hu0 hu1).2,
        (applyDecay_bounds env email hexp hp0 hp1).1,
        (applyDecay_bounds env email hexp hp0 hp1).2, rfl, rfl⟩

end SentimentOpaque

/-- C1 (amended): for every message that completes the enrichment pipeline,
`importanceScore`, `spamScore`, `urgencyScore` and `priorityScore` lie in
[0,1]; `deletableScore` is nonnegative but is *not* clamped after the
advanced-scoring pass — categorization may add 0.4 and attachment processing
0.3 on top of the capped 1.0, so it is only bounded by 1.7.
(`Math.exp` is assumed to return a value in [0,1] on nonpositive arguments,
which the decay call sites guarantee.) -/
theorem processEmail_score_bounds (env : Env) (ai : Option AiData) (email r : Email)
    (hexp : ∀ x : ℚ, x ≤ 0 → 0 ≤ env.expFn x ∧ env.expFn x ≤ 1)
    (h : processEmail env ai email = .ok r) :
    0 ≤ r.importanceScore ∧ r.importanceScore ≤ 1 ∧
    0 ≤ r.spamScore ∧ r.spamScore ≤ 1 ∧
    0 ≤ r.urgencyScore ∧ r.urgencyScore ≤ 1 ∧
    0 ≤ r.priorityScore ∧ r.priorityScore ≤ 1 ∧
    0 ≤ r.deletableScore ∧ r.deletableScore ≤ 17/10 := by
  unfold processEmail at h
  obtain ⟨s1, h1, h⟩ := exceptBind_ok _ _ _ h
  obtain ⟨s2, h2, h⟩ := exceptBind_ok _ _ _ h
  obtain ⟨s3, h3, h⟩ := exceptBind_ok _ _ _ h
  obtain ⟨s4, h4, h5⟩ := exceptBind_ok _ _ _ h
  obtain ⟨e1i0, e1i1, e1s0, e1s1⟩ := enhancedSummarize_bounds ai email s1 h1
  obtain ⟨ai0, ai1, au0, au1, ad0, ad1, ap0, ap1, asp⟩ :=
    applyAdvancedScoring_bounds env s1 s2 h2 e1i0 e1i1
  obtain ⟨ci, csp, cu, cp, cd⟩ := categorizeEmail_scores env s2 s3 h3
  obtain ⟨ti0, ti1, tsp0, tsp1, tu, tp, td⟩ :=
    processAttachments_bounds s3 s4 h4 (by rw [ci]; exact ai0) (by rw [ci]; exact ai1)
      (by rw [csp, asp]; exact e1s0) (by rw [csp, asp]; exact e1s1)
  obtain ⟨fi0, fi1, fu0, fu1, fp0, fp1, fsp, fd⟩ :=
    applySentimentAnalysis_bounds env s4 r h5 hexp ti0 ti1
      (by rw [tu, cu]; exact au0) (by rw [tu, cu]; exact au1)
      (by rw [tp, cp]; exact ap0) (by rw [tp, cp]; exact ap1)
  refine ⟨fi0, fi1, ?_, ?_, fu0, fu1, fp0, fp1, ?_, ?_⟩
  · rw [fsp]; exact tsp0
  · rw [fsp]; exact tsp1
  · rw [fd]
    rcases td with hd | hd <;> rcases cd with hc | hc <;> rw [hd, hc] <;> linarith
  · rw [fd]
    rcases td with hd | hd <;> rcases cd with hc | hc <;> rw [hd, hc] <;> linarith

/-! ## Concrete witnesses and counterexamples

The section-local attribute lets `decide` evaluate the (by default
irreducible) rational arithmetic on the concrete inputs below. -/

section ConcreteEvaluation

attribute [local semireducible] Rat.add Rat.mul Rat.sub Rat.inv

/-- Witness for `composeId_decomposeId_roundtrip` at concrete inputs. -/
theorem composeId_decomposeId_roundtrip_witness :
    decomposeId (composeId ("user0001x".toList) ("acc".toList) ("prov".toList)) =
      .ok ⟨("user0001x".toList).take 8, ("acc".toList), ("prov".toList)⟩ ∧
    decomposeId ("a#b".toList) = .error .malformedId :=
  ⟨composeId_decomposeId_roundtrip.1 ("user0001x".toList) ("acc".toList) ("prov".toList)
      (by decide) (by decide) (by decide),
   composeId_decomposeId_roundtrip.2 ("a#b".toList) (by decide)⟩

/-- C5 counterexample: the round-trip law fails as stated (for *every*
`accountId`/`providerId` without `#`, with the user ID unconstrained): a user
ID whose 8-character prefix contains `#` shifts the parts, so decomposing
returns `b` as the account ID instead of `acc`. -/
theorem composeId_roundtrip_fails_hash_userId :
    '#' ∉ ("acc".toList) ∧ '#' ∉ ("prov".toList) ∧
    decomposeId (composeId ("a#b".toList) ("acc".toList) ("prov".toList)) =
      .ok ⟨("a".toList), ("b".toList), ("acc".toList)⟩ ∧
    ("b".toList : Str) ≠ ("acc".toList) := by
  refine ⟨by decide, by decide, by decide, by decide⟩

/-- Witness for `getInbox_getDeletables_null_index` on the empty store. -/
theorem getInbox_getDeletables_null_index_witness :
    getDeletables { index := none, mail := [] } = [] ∧
    ∃ msg, getInbox { index := none, mail := [] } = .error (.typeError msg) :=
  getInbox_getDeletables_null_index { index := none, mail := [] } rfl

/-- Witness for `importNewEmails_no_google_accounts_noop`: a user whose only
account is not a Google account, against a store with no index document. -/
theorem importNewEmails_no_google_accounts_noop_witness :
    importNewEmails
      { userId := ("user".toList)
        accounts := [(("a1".toList), { type := ("slack".toList), token := ("t".toList) })]
        listing := fun _ => [("m1".toList)]
        fetch := fun _ _ => emptyEmail }
      { index := none, mail := [] } =
    some ({ index := none, mail := [] }, []) :=
  importNewEmails_no_google_accounts_noop _ _ (by decide)

/-- Witness for `archive_spec` on a concrete two-message index. -/
theorem archive_spec_witness :
    (∃ idx1, archive c4Store ("m1".toList) =
        .ok { index := some idx1, mail := c4Store.mail } ∧
      ("m1".toList) ∉ idx1.inbox ∧ ("m1".toList) ∉ idx1.deletables ∧
      idx1.ids = c4Index.ids ∧ idx1.newMail = c4Index.newMail ∧
      idx1.summarizationQueue = c4Index.summarizationQueue ∧
      MailCacheService.get { index := some idx1, mail := c4Store.mail } ("m1".toList) =
        MailCacheService.get c4Store ("m1".toList)) ∧
    (∃ msg, archive c4Store ("m3".toList) = .error (.notFound msg)) :=
  ⟨(archive_spec c4Store c4Index ("m1".toList) rfl (by decide) (by decide) (by decide)).1
      (by decide),
   (archive_spec c4Store c4Index ("m3".toList) rfl (by decide) (by decide) (by decide)).2
      (by decide)⟩

/-- Witness for `applyAdvancedScoring_priority_formula` at a concrete email. -/
theorem applyAdvancedScoring_priority_formula_witness :
    applyAdvancedScoring testEnv c7Email = .ok c7Result ∧
    c7Result.priorityScore = clamp01 ((7/10) * c7Result.importanceScore
      + (3/10) * c7Result.urgencyScore - (5/10) * c7Result.deletableScore) ∧
    (c7Result.priorityScore ≥ 8/10 → c7Result.priorityLabel = ("Critical".toList)) :=
  ⟨by decide,
   (applyAdvancedScoring_priority_formula testEnv c7Email c7Result (by decide)).1,
   (applyAdvancedScoring_priority_formula testEnv c7Email c7Result (by decide)).2.1⟩

/-- Witness for `updateInbox_views_spec` at a concrete two-message store. -/
theorem updateInbox_views_spec_witness :
    ∃ (idx1 : CacheIndex) (esP esD : List Email), c8Result.index = some idx1 ∧
      idx1.inbox = esP.map Email._id ∧ idx1.deletables = esD.map Email._id ∧
      esP.Perm esD ∧ idx1.inbox.Perm idx1.deletables ∧
      esP.Pairwise (fun a b => b.priorityScore ≤ a.priorityScore) ∧
      esD.Pairwise (fun a b => b.deletableScore ≤ a.deletableScore) :=
  updateInbox_views_spec c8Store c8Index c8Result (by decide)

/-- C2 counterexample: a message whose parsed age is 10 days (well over 3)
but whose sentiment the AI already set passes through the sentiment/decay
pass entirely unchanged — `priorityScore` keeps its pre-decay value and
neither `decayFactor` nor `decayApplied` is recorded — refuting the claim
that temporal decay applies regardless of an existing sentiment. -/
theorem applySentimentAnalysis_skips_decay_when_sentiment_set :
    testEnv.parseDate c2Email.date = some 0 ∧
    (testEnv.now - 0) / dayMs > 3 ∧
    applySentimentAnalysis testEnv c2Email = .ok c2Email ∧
    c2Email.decayApplied = false ∧ c2Email.decayFactor = 0 ∧
    c2Email.priorityScore = 8/10 :=
  ⟨rfl, by decide, by decide, by decide, by decide, by decide⟩

/-- Witness for `applySentimentAnalysis_decay_spec` at concrete messages. -/
theorem applySentimentAnalysis_decay_spec_witness :
    applySentimentAnalysis testEnv c2Email = .ok c2Email ∧
    (∃ r, applySentimentAnalysis testEnv c2EmailNoSentiment = .ok r ∧
      r.decayFactor = testEnv.expFn (-(1/10) * ((testEnv.now - 0) / dayMs - 3)) ∧
      r.decayApplied = true ∧
      r.priorityScore = max (c2EmailNoSentiment.priorityScore * r.decayFactor)
        (c2EmailNoSentiment.priorityScore * (3/10))) :=
  ⟨(applySentimentAnalysis_decay_spec testEnv c2Email (by decide)).1 (by decide),
   (applySentimentAnalysis_decay_spec testEnv c2EmailNoSentiment (by decide)).2 0
     (by decide) rfl (by decide)⟩

/-- C3: the enrichment chain itself succeeds on the queued message, yet
`supplySummaries` leaves its ID in the persisted summarization queue: the
source pushes the result onto the undeclared variable `processedEmails`,
which raises a ReferenceError that the batch `catch` swallows before the
queue-removal line runs.  Contrary to the claim, a successfully enriched
message is never removed from the queue. -/
theorem supplySummaries_queue_never_drained :
    (processEmail testEnv (some c3Ai) c3Email).isOk = true ∧
    supplySummaries testEnv (fun _ => some c3Ai) c3Store = some c3Result ∧
    c3Result.index = some c3ResultIdx ∧
    c3ResultIdx.summarizationQueue = [("m1".toList)] :=
  ⟨by decide, by decide, by decide, by decide⟩

/-- Witness for `importNewEmails_idempotent`: the second run on the produced
store is the identity and writes nothing. -/
theorem importNewEmails_idempotent_witness :
    importNewEmails c6Env { index := none, mail := [] } = some (c6Run1.1, c6Run1.2) ∧
    importNewEmails c6Env c6Run1.1 = some (c6Run1.1, []) :=
  ⟨by decide,
   importNewEmails_idempotent c6Env { index := none, mail := [] } c6Run1.1 c6Run1.2
     (by decide) (by decide)⟩

/-- C1 counterexample: a message that completes the whole pipeline with a
final `deletableScore` of 1.4: advanced scoring caps it at 1.0 (category
0.3 + invoice title 0.35 + spam 0.4), then the categorization pass adds its
0.4 invoice boost without re-clamping. -/
theorem processEmail_deletable_exceeds_one :
    processEmail testEnv (some c1Ai) c1Email = .ok c1Result ∧
    c1Result.deletableScore = 7/5 ∧ ((7:ℚ)/5) > 1 :=
  ⟨by decide, by decide, by decide⟩

/-- Witness for `processEmail_score_bounds` at the concrete pipeline run. -/
theorem processEmail_score_bounds_witness :
    0 ≤ c1Result.importanceScore ∧ c1Result.importanceScore ≤ 1 ∧
    0 ≤ c1Result.spamScore ∧ c1Result.spamScore ≤ 1 ∧
    0 ≤ c1Result.urgencyScore ∧ c1Result.urgencyScore ≤ 1 ∧
    0 ≤ c1Result.priorityScore ∧ c1Result.priorityScore ≤ 1 ∧
    0 ≤ c1Result.deletableScore ∧ c1Result.deletableScore ≤ 17/10 :=
  processEmail_score_bounds testEnv (some c1Ai) c1Email c1Result
    (fun _ _ => by constructor <;> norm_num [testEnv]) (by decide)

end ConcreteEvaluation
